import Mathlib

/-!
Verification of the MeedyaDL (gamdl-gui) installer against its specification.

The Python source is shallowly embedded:
* machine effects (HTTP GET, zip extraction, subprocess spawning) are passed
  in as oracle functions returning `Except Unit _`, where `.error ()` stands
  for the corresponding Python exception (network error, `BadZipFile`,
  `FileNotFoundError` / `CalledProcessError`);
* the filesystem is an explicit state `FS` (a set of existing directories and
  a list of files with their byte contents), threaded through each function;
* a raised Python exception that escapes a repo function is an `.error`
  constructor of `PyErr` in the function result;
* `print` output is collected in a `printed` list, and the URLs for which an
  HTTP request was actually issued are recorded in a `requested` list.
-/

namespace GamdlGui

/-- Byte strings (`response.content`, file contents) as lists of byte values. -/
abbrev ByteStr := List Nat

/-- An HTTP response as seen by `requests.get`: a numeric status and a body. -/
structure HttpResponse where
  status_code : Nat
  content : ByteStr
deriving Repr, DecidableEq

/-- Python exceptions that can escape the embedded functions.
`keyError` models the `KeyError` (a subclass of `LookupError`) raised by
`LIBRARY_URLS[name]`; `netError` any `requests` exception; `badZip` the
`zipfile.BadZipFile` raised on a corrupt archive. -/
inductive PyErr where
  | keyError (k : String)
  | netError
  | badZip
deriving Repr, DecidableEq

/-- Filesystem state: the set of existing directories and the files present,
each with its byte contents. -/
structure FS where
  dirs : List String
  files : List (String × ByteStr)
deriving Repr, DecidableEq

/-- `os.makedirs(path, exist_ok=True)` (utils.py line 16): ensure `path`
exists as a directory; a no-op when it already does.  Parent directories are
abstracted away: only the existence of `path` itself matters to the source. -/
def makedirs_exist_ok (fs : FS) (path : String) : FS :=
  if path ∈ fs.dirs then fs else { fs with dirs := path :: fs.dirs }

/-- `open(path, "wb"); file.write(content)`: create or overwrite the file at
`path` with `content`. -/
def write_file (fs : FS) (path : String) (content : ByteStr) : FS :=
  { fs with files := (path, content) :: fs.files.filter (fun kv => kv.1 != path) }

/-- `os.path.join` with a single separator, as used on the bin directory. -/
def path_join (a b : String) : String := a ++ "/" ++ b

/-- Python `str.endswith`, used at utils.py line 20 as
`url.endswith(".zip")`: a character-level suffix test. -/
def str_ends_with (s suf : String) : Bool :=
  List.isSuffixOf suf.data s.data

/-- `zf.extractall(output_dir)` on an already-parsed archive: write every
entry of the archive under `dir`. -/
def extract_all (fs : FS) (dir : String) (entries : List (String × ByteStr)) : FS :=
  entries.foldl (fun acc e => write_file acc (path_join dir e.1) e.2) fs

/-- `LIBRARY_URLS` from gamdl-gui/constants.py. -/
def LIBRARY_URLS : List (String × String) :=
  [("FFmpeg", "https://www.gyan.dev/ffmpeg/builds/ffmpeg-release-essentials.zip"),
   ("MP4Box", "https://example.com/mp4box.zip"),
   ("yt-dlp", "https://github.com/yt-dlp/yt-dlp/releases/latest/download/yt-dlp.exe"),
   ("N_m3u8DL-RE", "https://github.com/nilaoda/N_m3u8DL-RE/releases/latest/download/N_m3u8DL-RE.exe")]

/-- `LIBRARY_INSTALL_DIR` from gamdl-gui/constants.py. -/
def LIBRARY_INSTALL_DIR : String := "./bin"

/-- Result of a `download_library` run: the returned value or escaped
exception, the final filesystem, the `print`ed lines, and the URLs that were
actually requested over the network. -/
structure DLResult where
  result : Except PyErr Bool
  fs : FS
  printed : List String
  requested : List String

/-- Continuation of `download_library` from utils.py lines 19-31, after the
URL was resolved, the install directory ensured (`fs1`) and the GET issued
(`resp`).  The body branches on the status code, then on the `.zip` URL
suffix; a corrupt archive (`unzip _ = .error ()`) escapes as `badZip`
because the source has no try/except. -/
def download_library_fetched (unzip : ByteStr → Except Unit (List (String × ByteStr)))
    (os_name name url : String) (fs1 : FS) (resp : Except Unit HttpResponse) : DLResult :=
  match resp with
  | .error _ => ⟨.error .netError, fs1, [], [url]⟩
  | .ok response =>
    if response.status_code = 200 then
      if str_ends_with url ".zip" then
        match unzip response.content with
        | .error _ => ⟨.error .badZip, fs1, [], [url]⟩
        | .ok entries =>
          ⟨.ok true, extract_all fs1 LIBRARY_INSTALL_DIR entries,
           [name ++ " downloaded successfully."], [url]⟩
      else
        ⟨.ok true,
         write_file fs1
           (path_join LIBRARY_INSTALL_DIR (if os_name = "nt" then name ++ ".exe" else name))
           response.content,
         [name ++ " downloaded successfully."], [url]⟩
    else
      ⟨.ok false, fs1,
       ["Failed to download " ++ name ++ ". HTTP Status: " ++ toString response.status_code],
       [url]⟩

/-- `download_library(name)` from gamdl-gui/utils.py lines 8-31, embedded
over oracles `net` (`requests.get`) and `unzip` (parsing `response.content`
as a zip archive; `.error ()` is a corrupt archive) and the `os.name`
string.  The source has no try/except: an unknown `name` raises `KeyError`
at line 12 before any effect, a network error escapes from line 18 after the
directory was created, and a corrupt archive escapes from line 21. -/
def download_library (net : String → Except Unit HttpResponse)
    (unzip : ByteStr → Except Unit (List (String × ByteStr)))
    (os_name : String) (name : String) (fs : FS) : DLResult :=
  match LIBRARY_URLS.lookup name with
  | none => ⟨.error (.keyError name), fs, [], []⟩
  | some url =>
    download_library_fetched unzip os_name name url
      (makedirs_exist_ok fs LIBRARY_INSTALL_DIR) (net url)

/-- `is_library_available(path)` from gamdl-gui/utils.py lines 33-42.  The
oracle `run` models `subprocess.run` on an argument vector, returning the
exit status or `.error ()` for any invocation failure (missing file, broken
binary).  `check=True` turns a non-zero exit status into a raised
`CalledProcessError`; the surrounding `except Exception` catches every
failure uniformly and returns `False`. -/
def is_library_available (run : List String → Except Unit Nat) (path : String) : Bool :=
  match run [path, "--version"] with
  | .ok 0 => true
  | _ => false

/-- A JSON value, as produced by `json.load`. -/
inductive Json where
  | null
  | bool (b : Bool)
  | num (n : Int)
  | str (s : String)
  | arr (elems : List Json)
  | obj (entries : List (String × Json))

/-- The state of the config file on disk: absent (`open` raises
`FileNotFoundError`), present but not parseable as JSON (`json.load`
raises), or a parsed JSON value. -/
inductive FileState where
  | absent
  | invalid (raw : String)
  | json (v : Json)

/-- Python `dict.update`: existing keys keep their position and take the new
value, keys new to `config` are appended in `updates` order. -/
def dict_update (config updates : List (String × Json)) : List (String × Json) :=
  config.map (fun kv =>
    match updates.lookup kv.1 with
    | some v => (kv.1, v)
    | none => kv) ++
  updates.filter (fun kv => (config.lookup kv.1).isNone)

/-- `update_config(library_paths)` from gamdl-gui/config.py lines 3-18.  The
whole body is inside `try`: if `open` or `json.load` raises, or the loaded
value is not a dict (so `config.update` raises `AttributeError`), the
`except` clause prints a diagnostic and the file is left unchanged, the
rewrite never having started. -/
def update_config (library_paths : List (String × Json)) (file : FileState) :
    FileState × List String :=
  match file with
  | .absent => (.absent, ["Failed to update config.json: file not found"])
  | .invalid raw => (.invalid raw, ["Failed to update config.json: invalid JSON"])
  | .json (.obj entries) =>
    (.json (.obj (dict_update entries library_paths)),
     ["config.json updated successfully."])
  | .json v => (.json v, ["Failed to update config.json: not an object"])

/-- `GITHUB_API_RELEASE_URL` from constants.py. -/
def GITHUB_API_RELEASE_URL : String :=
  "https://api.github.com/repos/yaronzz/gamdl/releases/latest"

/-- Modelled from the spec: `check_gamdl_update` is imported by
gamdl-gui/main.py from `.utils` but is not defined anywhere under the
source tree; only its caller `check_for_updates` is present.  Per the spec
(section 4.4, Update checker) it GETs the release-metadata endpoint, parses
the JSON, reads the `tag_name` field, and returns the tag string, or a
null/absent value if the field is missing or the request fails.  The oracle
`net` returns the parsed JSON body or `.error ()` for a failed request
(including an unparseable body). -/
def check_gamdl_update (net : String → Except Unit Json) : Option String :=
  match net GITHUB_API_RELEASE_URL with
  | .error _ => none
  | .ok (.obj entries) =>
    match entries.lookup "tag_name" with
    | some (.str t) => some t
    | _ => none
  | .ok _ => none

/-! ## Concrete environments used to instantiate the theorems -/

/-- The empty filesystem of a fresh environment. -/
def fsEmpty : FS := ⟨[], []⟩

/-- A network on which every GET raises a requests exception. -/
def netDown : String → Except Unit HttpResponse := fun _ => .error ()

/-- A network on which every GET returns HTTP 201 (a 2xx status) with a
three-byte body. -/
def net201 : String → Except Unit HttpResponse := fun _ => .ok ⟨201, [1, 2, 3]⟩

/-- A network on which every GET returns HTTP 200 with a one-byte body. -/
def net200 : String → Except Unit HttpResponse := fun _ => .ok ⟨200, [7]⟩

/-- A network on which every GET returns HTTP 404 with an empty body. -/
def net404 : String → Except Unit HttpResponse := fun _ => .ok ⟨404, []⟩

/-- A network on which every GET returns HTTP 500 with an empty body. -/
def net500 : String → Except Unit HttpResponse := fun _ => .ok ⟨500, []⟩

/-- An archive oracle for which every body is a corrupt archive. -/
def unzipFail : ByteStr → Except Unit (List (String × ByteStr)) := fun _ => .error ()

/-- An archive oracle for which every body parses to a one-entry archive. -/
def unzipOne : ByteStr → Except Unit (List (String × ByteStr)) :=
  fun _ => .ok [("ffmpeg-release-essentials/bin/ffmpeg", [9])]

/-- A sample parsed config object with one unrelated key and one stale
library path. -/
def cfgSample : List (String × Json) :=
  [("quality", .str "high"), ("FFmpeg", .str "/old/ffmpeg")]

/-- A sample library-path mapping overwriting one key and adding one. -/
def updSample : List (String × Json) :=
  [("FFmpeg", .str "./bin/ffmpeg"), ("MP4Box", .str "./bin/MP4Box")]

/-! ## Theorems -/

/-- `makedirs_exist_ok` never touches the files. -/
theorem makedirs_files_eq (fs : FS) (p : String) :
    (makedirs_exist_ok fs p).files = fs.files := by
  unfold makedirs_exist_ok
  split <;> rfl

/-- After `makedirs_exist_ok` the path is a directory. -/
theorem makedirs_mem_dirs (fs : FS) (p : String) :
    p ∈ (makedirs_exist_ok fs p).dirs := by
  unfold makedirs_exist_ok
  split
  · assumption
  · exact List.mem_cons_self _ _

/-- The file just written is found with its contents. -/
theorem write_file_lookup_self (fs : FS) (p : String) (c : ByteStr) :
    (write_file fs p c).files.lookup p = some c := by
  unfold write_file
  simp [List.lookup]

/-- Reduction of `download_library` on a known name: the directory is
ensured and control passes to the post-GET continuation. -/
theorem download_library_known (net : String → Except Unit HttpResponse)
    (unzip : ByteStr → Except Unit (List (String × ByteStr)))
    (os_name name url : String) (fs : FS)
    (hname : LIBRARY_URLS.lookup name = some url) :
    download_library net unzip os_name name fs =
      download_library_fetched unzip os_name name url
        (makedirs_exist_ok fs LIBRARY_INSTALL_DIR) (net url) := by
  unfold download_library
  rw [hname]

/-- Key lookup in the overwrite pass of `dict_update`. -/
theorem lookup_map_update (c u : List (String × Json)) (k : String) :
    (c.map (fun kv => match u.lookup kv.1 with
      | some v => (kv.1, v)
      | none => kv)).lookup k = (c.lookup k).map (fun v => (u.lookup k).getD v) := by
  induction c with
  | nil => rfl
  | cons kv rest ih =>
    obtain ⟨k1, v1⟩ := kv
    by_cases hk : (k == k1) = true
    · have hkk : k = k1 := beq_iff_eq.mp hk
      subst hkk
      cases hu : u.lookup k with
      | some v => simp [List.lookup, hu]
      | none => simp [List.lookup, hu]
    · cases hu : u.lookup k1 with
      | some v => simp [List.lookup, hk, hu, ih]
      | none => simp [List.lookup, hk, hu, ih]

/-- Keys absent from `c` look up through the filtered `u` unchanged. -/
theorem lookup_filter_fresh (c u : List (String × Json)) (k : String)
    (h : c.lookup k = none) :
    (u.filter (fun kv => (c.lookup kv.1).isNone)).lookup k = u.lookup k := by
  induction u with
  | nil => rfl
  | cons kv rest ih =>
    obtain ⟨k1, v1⟩ := kv
    by_cases hk : (k == k1) = true
    · have hkk : k = k1 := beq_iff_eq.mp hk
      subst hkk
      simp [List.filter_cons, h, List.lookup]
    · by_cases hc : ((c.lookup k1).isNone : Bool) = true
      · simp [List.filter_cons, hc, List.lookup, hk, ih]
      · simp [List.filter_cons, hc, List.lookup, hk, ih]

/-- Lookup stops in the left part of an append when it hits. -/
theorem lookup_append_left (l1 l2 : List (String × Json)) (k : String) (v : Json)
    (h : l1.lookup k = some v) : (l1 ++ l2).lookup k = some v := by
  induction l1 with
  | nil => simp [List.lookup] at h
  | cons kv rest ih =>
    obtain ⟨k1, v1⟩ := kv
    by_cases hk : (k == k1) = true
    · simp [List.lookup, hk] at h ⊢
      exact h
    · simp [List.lookup, hk] at h ⊢
      exact ih h

/-- Unfolding of `List.lookup` on a cons cell as an `if`. -/
theorem lookup_cons_eq (k k1 : String) (v1 : Json) (rest : List (String × Json)) :
    List.lookup k ((k1, v1) :: rest) =
      if k = k1 then some v1 else List.lookup k rest := by
  by_cases hk : k = k1
  · subst hk
    simp [List.lookup]
  · have hb : (k == k1) = false := beq_eq_false_iff_ne.mpr hk
    simp [List.lookup, hb, hk]

/-- Lookup falls through to the right part of an append when the left part
misses. -/
theorem lookup_append_right (l1 l2 : List (String × Json)) (k : String)
    (h : l1.lookup k = none) : (l1 ++ l2).lookup k = l2.lookup k := by
  induction l1 with
  | nil => rfl
  | cons kv rest ih =>
    obtain ⟨k1, v1⟩ := kv
    rw [lookup_cons_eq] at h
    rw [List.cons_append, lookup_cons_eq]
    by_cases hk : k = k1
    · rw [if_pos hk] at h
      exact absurd h (by simp)
    · rw [if_neg hk] at h
      rw [if_neg hk]
      exact ih h

/-- Full lookup characterization of Python `dict.update`. -/
theorem dict_update_lookup (c u : List (String × Json)) (k : String) :
    (dict_update c u).lookup k =
      match c.lookup k with
      | some v => some ((u.lookup k).getD v)
      | none => u.lookup k := by
  unfold dict_update
  cases hc : c.lookup k with
  | some v =>
    have h1 := lookup_map_update c u k
    rw [hc] at h1
    exact lookup_append_left _ _ _ _ (by rw [h1]; rfl)
  | none =>
    have h1 := lookup_map_update c u k
    rw [hc] at h1
    rw [lookup_append_right _ _ _ (by rw [h1]; rfl)]
    exact lookup_filter_fresh c u k hc

/-- Claim C2: for every name that is not a key of `LIBRARY_URLS`,
`download_library` fails with the `KeyError` (a subclass of `LookupError`)
raised at line 12, before issuing any network request (`requested = []`) and
before creating the install directory (the filesystem is unchanged). -/
theorem download_library_unknown_name
    (net : String → Except Unit HttpResponse)
    (unzip : ByteStr → Except Unit (List (String × ByteStr)))
    (os_name name : String) (fs : FS)
    (h : LIBRARY_URLS.lookup name = none) :
    download_library net unzip os_name name fs = ⟨.error (.keyError name), fs, [], []⟩ := by
  unfold download_library
  rw [h]

/-- Closed instance of `download_library_unknown_name` at the unknown name
`"curl"`. -/
theorem download_library_unknown_name_witness :
    download_library (fun _ => .error ()) (fun _ => .error ()) "posix" "curl" ⟨[], []⟩ =
      ⟨.error (.keyError "curl"), ⟨[], []⟩, [], []⟩ :=
  download_library_unknown_name _ _ _ _ _ (by decide)

/-- Claim C3: `is_library_available` is a total boolean function of the
subprocess outcome (the `except Exception` catches every failure): it
returns `true` exactly when `[path, "--version"]` exits with status zero,
and `false` uniformly otherwise, with no distinction among a missing file
(`.error`), an invocation error (`.error`) and a non-zero exit status. -/
theorem is_library_available_iff_exit_zero
    (run : List String → Except Unit Nat) (path : String) :
    is_library_available run path = true ↔ run [path, "--version"] = .ok 0 := by
  unfold is_library_available
  constructor
  · intro h
    cases hr : run [path, "--version"] with
    | ok n =>
      cases n with
      | zero => rfl
      | succ m => rw [hr] at h; simp at h
    | error e => rw [hr] at h; simp at h
  · intro h
    rw [h]

/-- Closed instance of `is_library_available_iff_exit_zero`: a binary whose
version probe exits with status 0 is reported available. -/
theorem is_library_available_iff_exit_zero_witness :
    is_library_available (fun _ => .ok 0) "./bin/ffmpeg" = true :=
  (is_library_available_iff_exit_zero (fun _ => .ok 0) "./bin/ffmpeg").mpr rfl

/-- Claim C7: the directory-creation step (`os.makedirs` with
`exist_ok=True`, utils.py line 16) is idempotent: after invoking it the path
exists; on an already existing path it is a no-op that does not fail; and
running it twice equals running it once. -/
theorem makedirs_exist_ok_idempotent (fs : FS) (p : String) :
    p ∈ (makedirs_exist_ok fs p).dirs ∧
    (p ∈ fs.dirs → makedirs_exist_ok fs p = fs) ∧
    makedirs_exist_ok (makedirs_exist_ok fs p) p = makedirs_exist_ok fs p := by
  unfold makedirs_exist_ok
  by_cases h : p ∈ fs.dirs <;> simp [h]

/-- Closed instance of `makedirs_exist_ok_idempotent`: creating `./bin` when
it already exists changes nothing. -/
theorem makedirs_exist_ok_idempotent_witness :
    makedirs_exist_ok ⟨["./bin"], []⟩ "./bin" = ⟨["./bin"], []⟩ :=
  (makedirs_exist_ok_idempotent ⟨["./bin"], []⟩ "./bin").2.1 (by decide)

/-- Claim C10: `update_config` is atomic with respect to read failures: when
opening the file raises (`absent`) or parsing it as JSON raises
(`invalid`), the file content is unchanged and the function returns normally
with only a printed diagnostic. -/
theorem update_config_read_failure_frame (u : List (String × Json)) (raw : String) :
    update_config u .absent = (.absent, ["Failed to update config.json: file not found"]) ∧
    update_config u (.invalid raw) =
      (.invalid raw, ["Failed to update config.json: invalid JSON"]) :=
  ⟨rfl, rfl⟩

/-- Claim C8 (modelled from the spec, `check_gamdl_update` being absent from
the source tree): the update checker returns the release tag string on
success, and `none` rather than raising when the metadata lacks `tag_name`
or the request fails. -/
theorem check_gamdl_update_tag_or_none (net : String → Except Unit Json) :
    (∀ entries t, net GITHUB_API_RELEASE_URL = .ok (.obj entries) →
      entries.lookup "tag_name" = some (.str t) → check_gamdl_update net = some t) ∧
    (net GITHUB_API_RELEASE_URL = .error () → check_gamdl_update net = none) ∧
    (∀ entries, net GITHUB_API_RELEASE_URL = .ok (.obj entries) →
      entries.lookup "tag_name" = none → check_gamdl_update net = none) := by
  refine ⟨fun entries t h1 h2 => ?_, fun h1 => ?_, fun entries h1 h2 => ?_⟩ <;>
    unfold check_gamdl_update
  · rw [h1]
    show (match entries.lookup "tag_name" with
          | some (.str t) => some t
          | _ => none) = some t
    rw [h2]
  · rw [h1]
  · rw [h1]
    show (match entries.lookup "tag_name" with
          | some (.str t) => some t
          | _ => none) = none
    rw [h2]

/-- Closed instances of `check_gamdl_update_tag_or_none` on three concrete
metadata endpoints: one with a tag, one unreachable, one without the field. -/
theorem check_gamdl_update_tag_or_none_witness :
    check_gamdl_update (fun _ => .ok (.obj [("tag_name", .str "v1.0")])) = some "v1.0" ∧
    check_gamdl_update (fun _ => .error ()) = none ∧
    check_gamdl_update (fun _ => .ok (.obj [("release", .num 3)])) = none :=
  ⟨(check_gamdl_update_tag_or_none _).1 [("tag_name", .str "v1.0")] "v1.0" rfl rfl,
   (check_gamdl_update_tag_or_none _).2.1 rfl,
   (check_gamdl_update_tag_or_none _).2.2 [("release", .num 3)] rfl rfl⟩

/-- Claim C6: on an existing JSON config file whose top level is an object,
`update_config` rewrites it in place to the merged object: every key of the
supplied mapping is present with its new value, and every original key not
in the mapping keeps its old value. -/
theorem update_config_merge (entries updates : List (String × Json)) :
    (update_config updates (.json (.obj entries))).1 =
      .json (.obj (dict_update entries updates)) ∧
    (∀ k w, updates.lookup k = some w →
      (dict_update entries updates).lookup k = some w) ∧
    (∀ k, updates.lookup k = none →
      (dict_update entries updates).lookup k = entries.lookup k) := by
  refine ⟨rfl, fun k w hw => ?_, fun k hn => ?_⟩
  · rw [dict_update_lookup]
    cases hc : entries.lookup k with
    | some v => simp [hw]
    | none => exact hw
  · rw [dict_update_lookup]
    cases hc : entries.lookup k with
    | some v => simp [hn]
    | none => exact hn

/-- Closed instance of `update_config_merge` on a config with an unrelated
key `quality` and a stale `FFmpeg` path, merged with two library paths. -/
theorem update_config_merge_witness :
    (dict_update cfgSample updSample).lookup "FFmpeg" = some (.str "./bin/ffmpeg") ∧
    (dict_update cfgSample updSample).lookup "MP4Box" = some (.str "./bin/MP4Box") ∧
    (dict_update cfgSample updSample).lookup "quality" = some (.str "high") :=
  ⟨(update_config_merge cfgSample updSample).2.1 "FFmpeg" _ rfl,
   (update_config_merge cfgSample updSample).2.1 "MP4Box" _ rfl,
   (update_config_merge cfgSample updSample).2.2 "quality" rfl⟩

/-- Counterexample to claim C1 as stated: for the known dependency name
"FFmpeg", a network error during the GET is not caught anywhere in
`download_library` (utils.py lines 8-31 contain no try/except), so the
exception escapes the boundary instead of being reported as `false`. -/
theorem download_library_netError_escapes :
    (download_library netDown unzipFail "posix" "FFmpeg" fsEmpty).result =
      .error .netError := rfl

/-- Claim C1 (amended): for every known dependency name, a non-success HTTP
status is caught and reported as the boolean `false` plus a printed
human-readable message; but a network error and a corrupt archive are not
caught and escape `download_library` as exceptions. -/
theorem download_library_error_behavior
    (net : String → Except Unit HttpResponse)
    (unzip : ByteStr → Except Unit (List (String × ByteStr)))
    (os_name name url : String) (fs : FS)
    (hname : LIBRARY_URLS.lookup name = some url) :
    (∀ r, net url = .ok r → r.status_code ≠ 200 →
      (download_library net unzip os_name name fs).result = .ok false ∧
      (download_library net unzip os_name name fs).printed =
        ["Failed to download " ++ name ++ ". HTTP Status: " ++ toString r.status_code]) ∧
    (net url = .error () →
      (download_library net unzip os_name name fs).result = .error .netError) ∧
    (∀ r, net url = .ok r → r.status_code = 200 → str_ends_with url ".zip" = true →
      unzip r.content = .error () →
      (download_library net unzip os_name name fs).result = .error .badZip) := by
  rw [download_library_known net unzip os_name name url fs hname]
  refine ⟨fun r hr hst => ?_, fun hr => ?_, fun r hr hst hzip hbad => ?_⟩
  · rw [hr]
    simp only [download_library_fetched]
    rw [if_neg hst]
    exact ⟨rfl, rfl⟩
  · rw [hr]
    rfl
  · rw [hr]
    simp only [download_library_fetched]
    rw [if_pos hst, if_pos hzip, hbad]

/-- Closed instance of `download_library_error_behavior`: a 404 for
"MP4Box" is reported as `false` plus the printed failure message. -/
theorem download_library_error_behavior_witness :
    (download_library net404 unzipFail "posix" "MP4Box" fsEmpty).result = .ok false ∧
    (download_library net404 unzipFail "posix" "MP4Box" fsEmpty).printed =
      ["Failed to download MP4Box. HTTP Status: 404"] :=
  (download_library_error_behavior net404 unzipFail "posix" "MP4Box"
    "https://example.com/mp4box.zip" fsEmpty rfl).1 ⟨404, []⟩ rfl (by decide)

/-- Counterexample to claim C4 as stated: HTTP 201 is a 2xx success status,
yet for the known name "yt-dlp" `download_library` compares the status to
the literal 200 (utils.py line 19), writes nothing and returns `false`. -/
theorem download_library_2xx_not_success :
    201 / 100 = 2 ∧
    (download_library net201 unzipFail "posix" "yt-dlp" fsEmpty).result = .ok false ∧
    (download_library net201 unzipFail "posix" "yt-dlp" fsEmpty).fs.files = [] :=
  ⟨rfl, rfl, rfl⟩

/-- Claim C4 (amended): success is status exactly 200, not any 2xx:
whenever the GET returns status 200, `download_library` places the resource
on disk (for a non-zip URL the raw body lands in the named binary file; for
a zip URL the entries are extracted, provided the archive parses) and
returns `true`; for every other status, 2xx or not, it writes nothing and
returns `false`. -/
theorem download_library_success_exactly_200
    (net : String → Except Unit HttpResponse)
    (unzip : ByteStr → Except Unit (List (String × ByteStr)))
    (os_name name url : String) (fs : FS) (r : HttpResponse)
    (hname : LIBRARY_URLS.lookup name = some url)
    (hr : net url = .ok r) :
    (r.status_code ≠ 200 →
      (download_library net unzip os_name name fs).result = .ok false ∧
      (download_library net unzip os_name name fs).fs.files = fs.files) ∧
    (r.status_code = 200 → str_ends_with url ".zip" = false →
      (download_library net unzip os_name name fs).result = .ok true ∧
      (download_library net unzip os_name name fs).fs.files.lookup
        (path_join LIBRARY_INSTALL_DIR (if os_name = "nt" then name ++ ".exe" else name)) =
        some r.content) ∧
    (∀ entries, r.status_code = 200 → str_ends_with url ".zip" = true →
      unzip r.content = .ok entries →
      (download_library net unzip os_name name fs).result = .ok true) := by
  rw [download_library_known net unzip os_name name url fs hname, hr]
  simp only [download_library_fetched]
  refine ⟨fun hst => ?_, fun hst hz => ?_, fun entries hst hz hu => ?_⟩
  · rw [if_neg hst]
    exact ⟨rfl, makedirs_files_eq fs LIBRARY_INSTALL_DIR⟩
  · rw [if_pos hst, if_neg (by simp [hz])]
    exact ⟨rfl, write_file_lookup_self _ _ _⟩
  · rw [if_pos hst, if_pos hz, hu]

/-- Closed instance of `download_library_success_exactly_200`: a 200
response for "yt-dlp" on Windows writes the body to `./bin/yt-dlp.exe` and
returns `true`. -/
theorem download_library_success_exactly_200_witness :
    (download_library net200 unzipFail "nt" "yt-dlp" fsEmpty).result = .ok true ∧
    (download_library net200 unzipFail "nt" "yt-dlp" fsEmpty).fs.files.lookup
      "./bin/yt-dlp.exe" = some [7] :=
  (download_library_success_exactly_200 net200 unzipFail "nt" "yt-dlp"
    "https://github.com/yt-dlp/yt-dlp/releases/latest/download/yt-dlp.exe"
    fsEmpty ⟨200, [7]⟩ rfl rfl).2.1 rfl (by decide)

/-- Claim C5: on a successful (status 200) response for a known dependency
name, `download_library` dispatches on the URL suffix: a URL ending in
".zip" has all its archive entries extracted into the install directory,
any other URL has the raw body written to a single file named after the
dependency, with ".exe" appended exactly when `os.name` is "nt". -/
theorem download_library_dispatch_by_suffix
    (net : String → Except Unit HttpResponse)
    (unzip : ByteStr → Except Unit (List (String × ByteStr)))
    (os_name name url : String) (fs : FS) (r : HttpResponse)
    (hname : LIBRARY_URLS.lookup name = some url)
    (hr : net url = .ok r) (hst : r.status_code = 200) :
    (∀ entries, str_ends_with url ".zip" = true → unzip r.content = .ok entries →
      download_library net unzip os_name name fs =
        ⟨.ok true,
         extract_all (makedirs_exist_ok fs LIBRARY_INSTALL_DIR) LIBRARY_INSTALL_DIR entries,
         [name ++ " downloaded successfully."], [url]⟩) ∧
    (str_ends_with url ".zip" = false →
      download_library net unzip os_name name fs =
        ⟨.ok true,
         write_file (makedirs_exist_ok fs LIBRARY_INSTALL_DIR)
           (path_join LIBRARY_INSTALL_DIR (if os_name = "nt" then name ++ ".exe" else name))
           r.content,
         [name ++ " downloaded successfully."], [url]⟩) := by
  rw [download_library_known net unzip os_name name url fs hname, hr]
  simp only [download_library_fetched]
  rw [if_pos hst]
  refine ⟨fun entries hz hu => ?_, fun hz => ?_⟩
  · rw [if_pos hz, hu]
  · rw [if_neg (by simp [hz])]

/-- Closed instance of `download_library_dispatch_by_suffix`: the FFmpeg
URL ends in ".zip", so its archive entries land under `./bin`. -/
theorem download_library_dispatch_by_suffix_witness :
    download_library net200 unzipOne "posix" "FFmpeg" fsEmpty =
      ⟨.ok true,
       extract_all (makedirs_exist_ok fsEmpty LIBRARY_INSTALL_DIR) LIBRARY_INSTALL_DIR
         [("ffmpeg-release-essentials/bin/ffmpeg", [9])],
       ["FFmpeg downloaded successfully."],
       ["https://www.gyan.dev/ffmpeg/builds/ffmpeg-release-essentials.zip"]⟩ :=
  (download_library_dispatch_by_suffix net200 unzipOne "posix" "FFmpeg"
    "https://www.gyan.dev/ffmpeg/builds/ffmpeg-release-essentials.zip"
    fsEmpty ⟨200, [7]⟩ rfl rfl rfl).1
    [("ffmpeg-release-essentials/bin/ffmpeg", [9])] (by decide) rfl

/-- Claim C9: when the GET for a known name returns a status other than
200, no file is written, yet the install directory was already created
before the request (utils.py line 16 precedes line 18), so a failed
download leaves the directory existing but with unchanged contents. -/
theorem download_library_failed_dir_frame
    (net : String → Except Unit HttpResponse)
    (unzip : ByteStr → Except Unit (List (String × ByteStr)))
    (os_name name url : String) (fs : FS) (r : HttpResponse)
    (hname : LIBRARY_URLS.lookup name = some url)
    (hr : net url = .ok r) (hst : r.status_code ≠ 200) :
    (download_library net unzip os_name name fs).fs.files = fs.files ∧
    LIBRARY_INSTALL_DIR ∈ (download_library net unzip os_name name fs).fs.dirs ∧
    (download_library net unzip os_name name fs).fs =
      makedirs_exist_ok fs LIBRARY_INSTALL_DIR := by
  rw [download_library_known net unzip os_name name url fs hname, hr]
  simp only [download_library_fetched]
  rw [if_neg hst]
  exact ⟨makedirs_files_eq fs LIBRARY_INSTALL_DIR,
         makedirs_mem_dirs fs LIBRARY_INSTALL_DIR, rfl⟩

/-- Closed instance of `download_library_failed_dir_frame`: after a 500 for
"N_m3u8DL-RE" on a fresh filesystem, `./bin` exists and holds no file. -/
theorem download_library_failed_dir_frame_witness :
    (download_library net500 unzipFail "posix" "N_m3u8DL-RE" fsEmpty).fs.files = [] ∧
    "./bin" ∈ (download_library net500 unzipFail "posix" "N_m3u8DL-RE" fsEmpty).fs.dirs := by
  have h := download_library_failed_dir_frame net500 unzipFail "posix" "N_m3u8DL-RE"
    "https://github.com/nilaoda/N_m3u8DL-RE/releases/latest/download/N_m3u8DL-RE.exe"
    fsEmpty ⟨500, []⟩ rfl rfl (by decide)
  exact ⟨h.1, h.2.1⟩

end GamdlGui
